import Mathlib

/-!
Verification development for the tk-katana repository.

The repository consists of two Python hook files:
* `hooks/tk-multi-publish2/basic/publish_lookfiles.py` — the
  `KatanaLookFilePublishPlugin` with its `accept`/`validate`/`publish`
  lifecycle methods; the interesting logic is the publish-candidate
  resolution loop inside `accept` (lines 274-336) and the check sequence
  in `validate` (lines 349-383).
* `hooks/scan_scene_tk-katana.py` — `ScanSceneHook.execute`.

The embedding below is a shallow translation of that Python code.
External collaborators (the Katana node graph, the sgtk template
registry, `sgtk.abstract_paths_from_template`, `os.path.exists`) are
modelled as function-valued parameters gathered in environment
structures.  Python dictionaries are modelled as association lists with
first-occurrence lookup, mirroring dict key uniqueness and insertion
order.  Exceptions are modelled with `Except`; collaborator invocations
are recorded in an explicit event trace so that claims about *which*
collaborators a call consults can be stated.
-/

namespace TkKatana

/-- A value stored in a template field set (sgtk field values are
strings or integers for the templates used by this plugin). -/
inductive FVal where
  | s : String → FVal
  | n : Nat → FVal
deriving DecidableEq

/-- A field set: a Python dict mapping field names to values, as
returned by `Template.get_fields` / `validate_and_get_fields`. -/
abbrev FieldSet := List (String × FVal)

/-- A value of the `publish_fields` loop variable's dict in
`accept` (lines 306-314).  Because the source reassigns
`publish_fields = publish_fields[publish_path]`, the dict bound to that
variable can hold both plain field values (when the variable currently
holds a field set) and whole field sets (freshly inserted cache
entries), so the value type is the union of the two. -/
inductive CVal where
  | atom : FVal → CVal
  | fdict : FieldSet → CVal
deriving DecidableEq

/-- The type of the `publish_fields` variable in `accept`. -/
abbrev CDict := List (String × CVal)

/-- Python exceptions that the embedded code can raise. -/
inductive PyErr where
  | keyError : String → PyErr
  | typeError : String → PyErr
  | attributeError : String → PyErr
  | tankError : String → PyErr
  | ioError : String → PyErr
deriving DecidableEq

/-- Events recording invocations of external collaborators during an
`accept` call, in program order. -/
inductive TraceEv where
  | setSettingsNode : String → TraceEv
  | getNodeEv : String → TraceEv
  | getTemplateEv : String → TraceEv
  | validateAndGetFieldsEv : String → TraceEv
  | abstractPathsEv : String → TraceEv
  | workGetFieldsEv : String → TraceEv
  | pubGetFieldsEv : String → TraceEv
  | pathExistsEv : String → TraceEv
deriving DecidableEq

/-- Python dict assignment `d[k] = v` on an association list: replace
the entry if the key is present, otherwise append (dicts preserve
insertion order). -/
def alSet {α : Type} (l : List (String × α)) (k : String) (v : α) :
    List (String × α) :=
  if (List.lookup k l).isSome then
    l.map (fun kv => if kv.1 = k then (k, v) else kv)
  else
    l ++ [(k, v)]

/-- An sgtk template object, reduced to the operations the hooks call
on it. -/
structure Template where
  name : String
  validate_and_get_fields : String → Option FieldSet
  get_fields : String → FieldSet
  validate : String → Bool
  apply_fields : FieldSet → String

/-- The Katana node parameters read by `accept` (lines 276-300):
`sg_saveTo`, `sg_work_template`, `sg_publish_template`. -/
structure KNode where
  sg_saveTo : String
  sg_work_template : String
  sg_publish_template : String

/-- The per-node settings dict recorded by `accept` (lines 327-330). -/
structure NodeSettings where
  work_paths : List String
  to_publish : String
deriving DecidableEq

/-- The plugin `settings` object: the `node` setting (a string) and the
`node_settings` setting (a dict from node name to per-node data). -/
structure Settings where
  node : String
  node_settings : List (String × NodeSettings)

/-- `item.properties` as used by the plugin.  The outer `Option` of the
template fields distinguishes an absent key (`none`, a `KeyError` on
read) from a stored value, and the stored value itself is an `Option`
because `engine.get_template_by_name` can return Python `None`. -/
structure ItemProps where
  path : Option String
  work_template : Option (Option Template)
  publish_template : Option (Option Template)
  publish_path : Option String

/-- The dict returned by `accept`.  The source sometimes omits the
`visible`/`enabled` keys (lines 333-336), hence the `Option`s. -/
structure AcceptFlags where
  accepted : Bool
  visible : Option Bool
  enabled : Option Bool
  checked : Bool
deriving DecidableEq

/-- External collaborators consumed by `accept`:
`item.name`, `NodegraphAPI.GetNode`, `engine.get_template_by_name`,
`sgtk.abstract_paths_from_template` (keyed here by template name) and
`os.path.exists`. -/
structure AcceptEnv where
  itemName : String
  getNode : String → KNode
  get_template_by_name : String → Option Template
  abstract_paths_from_template : String → FieldSet → List String
  pathExists : String → Bool

/-- The complete observable result of one `accept` call: the returned
dict (or the exception that escaped), the final `settings` object, the
final `item.properties`, and the collaborator trace. -/
structure AcceptRet where
  outcome : Except PyErr AcceptFlags
  settings : Settings
  item : ItemProps
  trace : List TraceEv

/-- Python string comparison: strict lexicographic order on the code
points, as used by `sorted(work_paths, reverse=True)` on line 305. -/
def lexLt : List Char → List Char → Bool
  | _, [] => false
  | [], _ :: _ => true
  | a :: as, b :: bs =>
    decide (a.toNat < b.toNat) || (decide (a.toNat = b.toNat) && lexLt as bs)

/-- The descending order used on line 305: `a` may precede `b` when
`a` is not smaller than `b`. -/
def strGe (a b : String) : Prop := lexLt a.data b.data = false

instance : DecidableRel strGe := fun a b =>
  inferInstanceAs (Decidable (lexLt a.data b.data = false))

/-- `sorted(l, reverse=True)` from line 305.  Python strings are
compared by code points; distinct sorting algorithms agree on lists of
strings because equal strings are indistinguishable, so a stable
insertion sort over the same total order is a faithful model. -/
def sortDesc (l : List String) : List String :=
  List.insertionSort strGe l

/-- Inject a field set into the `publish_fields` dict value type: the
state of the `publish_fields` variable right after the reassignment
`publish_fields = publish_fields[publish_path]` on line 314. -/
def injFS (fs : FieldSet) : CDict :=
  fs.map (fun kv => (kv.1, CVal.atom kv.2))

namespace KatanaLookFilePublishPlugin

/-- Lines 310-319 of `publish_lookfiles.py`: the inner loop over
`publish_paths` for one work path, threading the `publish_fields`
variable `D`.  Returns whether the loop hit `break` (the work path is
already published) together with the final value of `publish_fields`
and the trace of collaborator calls.

Line 312 checks `publish_path not in publish_fields`; line 313 caches
`publish_template.get_fields(publish_path)`; line 314 reassigns
`publish_fields` to the entry just looked up; line 315 evaluates
`os.path.exists(publish_path) and publish_fields["version"] ==
work_fields["version"]` with Python's short-circuit `and` and
`KeyError` on missing keys.  If line 314 produces a non-dict value
(possible only when a publish path collides with a field name of a
previously extracted field set), every later use of `publish_fields`
in the source fails with a type error, modelled here at the point of
the reassignment. -/
def publishCheckLoop (pathExists : String → Bool)
    (pubGetF : String → FieldSet) (wf : FieldSet) :
    CDict → List String → Except PyErr (Bool × CDict) × List TraceEv
  | D, [] => (.ok (false, D), [])
  | D, p :: ps =>
    let D1 := if (List.lookup p D).isSome then D
              else alSet D p (CVal.fdict (pubGetF p))
    let tr1 : List TraceEv :=
      if (List.lookup p D).isSome then [] else [TraceEv.pubGetFieldsEv p]
    match List.lookup p D1 with
    | none => (.error (.keyError p), tr1)
    | some (.atom _) =>
      (.error (.typeError "publish_fields is not a dict"), tr1)
    | some (.fdict pf) =>
      if pathExists p then
        match List.lookup "version" pf, List.lookup "version" wf with
        | some pv, some wv =>
          if pv = wv then
            (.ok (true, injFS pf), tr1 ++ [TraceEv.pathExistsEv p])
          else
            let r := publishCheckLoop pathExists pubGetF wf (injFS pf) ps
            (r.1, tr1 ++ [TraceEv.pathExistsEv p] ++ r.2)
        | none, _ =>
          (.error (.keyError "version"), tr1 ++ [TraceEv.pathExistsEv p])
        | some _, none =>
          (.error (.keyError "version"), tr1 ++ [TraceEv.pathExistsEv p])
      else
        let r := publishCheckLoop pathExists pubGetF wf (injFS pf) ps
        (r.1, tr1 ++ [TraceEv.pathExistsEv p] ++ r.2)

/-- Lines 307-319: the outer loop over `work_paths`.  For each work
path it extracts the work field set (line 308), runs the inner loop,
and on a hit removes the work path from `work_paths_to_publish`
(line 318; `list.remove` deletes the first occurrence, and within
`accept` the removed path is always present in the list). -/
def workCheckLoop (pathExists : String → Bool)
    (pubGetF workGetF : String → FieldSet) (pubPaths : List String) :
    List String → CDict → List String →
      Except PyErr (List String × CDict) × List TraceEv
  | toPub, D, [] => (.ok (toPub, D), [])
  | toPub, D, w :: ws =>
    let pr := publishCheckLoop pathExists pubGetF (workGetF w) D pubPaths
    match pr.1 with
    | .error e => (.error e, TraceEv.workGetFieldsEv w :: pr.2)
    | .ok fd =>
      let toPub1 := if fd.1 then toPub.erase w else toPub
      let r := workCheckLoop pathExists pubGetF workGetF pubPaths toPub1 fd.2 ws
      (r.1, TraceEv.workGetFieldsEv w :: pr.2 ++ r.2)

/-- `_set_item_settings` (lines 237-247): store a per-node settings
dict under the current `settings["node"]` key. -/
def set_item_settings (ns : NodeSettings) (s : Settings) : Settings :=
  { s with node_settings := alSet s.node_settings s.node ns }

/-- `KatanaLookFilePublishPlugin.accept` (lines 249-336), in source
order.  Line 274 writes `settings["node"]`; lines 275-282 read the node
parameters, fetch the work template and record it on the item;
line 284 validates the save path against the work template (`if not
fields` also rejects an empty field dict); line 290 deletes the
`version` field (`KeyError` if absent); line 292 enumerates work paths;
lines 299-303 fetch the publish template and enumerate publish paths;
lines 305-319 run the resolution loop; lines 321-336 assemble the
result.  A `None` template crashes at its first method call
(lines 284 and 303), modelled as an `attributeError`. -/
def accept (env : AcceptEnv) (settings0 : Settings) (item0 : ItemProps) :
    AcceptRet :=
  let s1 : Settings := { settings0 with node := env.itemName }
  let node := env.getNode env.itemName
  let path := node.sg_saveTo
  let i1 : ItemProps := { item0 with path := some path }
  let wtn := node.sg_work_template
  let owt := env.get_template_by_name wtn
  let i2 : ItemProps := { i1 with work_template := some owt }
  let tr0 := [TraceEv.setSettingsNode env.itemName,
              TraceEv.getNodeEv env.itemName, TraceEv.getTemplateEv wtn]
  match owt with
  | none =>
    { outcome := .error (.attributeError
        "NoneType object has no attribute validate_and_get_fields"),
      settings := s1, item := i2, trace := tr0 }
  | some WT =>
    let tr1 := tr0 ++ [TraceEv.validateAndGetFieldsEv path]
    match WT.validate_and_get_fields path with
    | none =>
      { outcome := .ok ⟨false, some false, some false, false⟩,
        settings := s1, item := i2, trace := tr1 }
    | some fields =>
      if fields = [] then
        { outcome := .ok ⟨false, some false, some false, false⟩,
          settings := s1, item := i2, trace := tr1 }
      else
        match List.lookup "version" fields with
        | none =>
          { outcome := .error (.keyError "version"),
            settings := s1, item := i2, trace := tr1 }
        | some _ =>
          let fields1 := fields.filter (fun kv => !(kv.1 == "version"))
          let work_paths := env.abstract_paths_from_template WT.name fields1
          let tr2 := tr1 ++ [TraceEv.abstractPathsEv WT.name]
          if work_paths = [] then
            { outcome := .ok ⟨false, some true, some true, false⟩,
              settings := s1, item := i2, trace := tr2 }
          else
            let ptn := node.sg_publish_template
            let opt := env.get_template_by_name ptn
            let i3 : ItemProps := { i2 with publish_template := some opt }
            let tr3 := tr2 ++ [TraceEv.getTemplateEv ptn]
            match opt with
            | none =>
              { outcome := .error (.attributeError
                  "abstract_paths_from_template of a NoneType template"),
                settings := s1, item := i3, trace := tr3 }
            | some PT =>
              let publish_paths :=
                env.abstract_paths_from_template PT.name fields1
              let tr4 := tr3 ++ [TraceEv.abstractPathsEv PT.name]
              let lr := workCheckLoop env.pathExists PT.get_fields
                  WT.get_fields publish_paths (sortDesc work_paths) []
                  work_paths
              match lr.1 with
              | .error e =>
                { outcome := .error e, settings := s1, item := i3,
                  trace := tr4 ++ lr.2 }
              | .ok tp =>
                match tp.1 with
                | [] =>
                  { outcome := .ok ⟨false, some true, some true, false⟩,
                    settings := s1, item := i3, trace := tr4 ++ lr.2 }
                | t :: _ =>
                  let s2 := set_item_settings ⟨tp.1, t⟩ s1
                  { outcome := .ok ⟨true, none, none, true⟩,
                    settings := s2, item := i3, trace := tr4 ++ lr.2 }

/-- `KatanaLookFilePublishPlugin.validate` (lines 349-383), in source
order.  Reading a missing `item.properties` key is a `KeyError`; the
`if not work_template` branches (lines 363-367) crash while formatting
their error message because they evaluate `.name` on `None`
(`AttributeError`), so the intended `TankError` is never raised;
`item_settings["to_publish"]` on the empty default dict is a
`KeyError`; lines 378-379 record `publish_path` and `path` on the item
*before* the final existence check on line 380.  `validate` reads but
never writes the settings object, so only the item state is returned
alongside the outcome. -/
def validate (pathExists : String → Bool) (settings : Settings)
    (item : ItemProps) : Except PyErr Bool × ItemProps :=
  let item_settings := List.lookup settings.node settings.node_settings
  match item.work_template with
  | none => (.error (.keyError "work_template"), item)
  | some owt =>
    match owt with
    | none =>
      (.error (.attributeError "NoneType object has no attribute name"),
       item)
    | some wt =>
      match item.publish_template with
      | none => (.error (.keyError "publish_template"), item)
      | some opt =>
        match opt with
        | none =>
          (.error (.attributeError
              "NoneType object has no attribute name"), item)
        | some pt =>
          match item_settings with
          | none => (.error (.keyError "to_publish"), item)
          | some ns =>
            let path := ns.to_publish
            if !(pathExists path) then
              (.error (.tankError ("The file '" ++ path ++
                "' no longer exists on disk. Has it been deleted/published?")),
               item)
            else if !(wt.validate path) then
              (.error (.tankError ("The filepath '" ++ path ++
                "' does not match the template '" ++ wt.name ++ "'")), item)
            else
              match wt.validate_and_get_fields path with
              | none =>
                (.error (.typeError "apply_fields of NoneType fields"), item)
              | some fields =>
                let publish_path := pt.apply_fields fields
                let item1 := { item with publish_path := some publish_path,
                                         path := some path }
                if pathExists publish_path then
                  (.error (.ioError ("The file '" ++ path ++
                    "' has already been copied to the publish location.")),
                   item1)
                else
                  (.ok true, item1)

end KatanaLookFilePublishPlugin

/-- The satisfaction condition of the resolution loop, as the spec
states it: a work path with field set `wf` is already published iff
some enumerated publish path exists on disk and its extracted field
set's version equals the work path's version. -/
def Satisfied (pathExists : String → Bool) (pubGetF : String → FieldSet)
    (pubPaths : List String) (wf : FieldSet) : Prop :=
  ∃ p ∈ pubPaths, pathExists p = true ∧
    List.lookup "version" (pubGetF p) = List.lookup "version" wf

instance (pathExists : String → Bool) (pubGetF : String → FieldSet)
    (pubPaths : List String) (wf : FieldSet) :
    Decidable (Satisfied pathExists pubGetF pubPaths wf) := by
  unfold Satisfied
  infer_instance

/-- Boolean form of `Satisfied`. -/
def satisfiedB (pathExists : String → Bool) (pubGetF : String → FieldSet)
    (pubPaths : List String) (wf : FieldSet) : Bool :=
  pubPaths.any (fun p => pathExists p &&
    decide (List.lookup "version" (pubGetF p) = List.lookup "version" wf))

/-! ### ScanSceneHook (scan_scene_tk-katana.py) -/

/-- External collaborators of `ScanSceneHook.execute`:
`FarmAPI.GetKatanaFileName` and `os.path.abspath` (which depends on the
process working directory). -/
structure ScanEnv where
  getKatanaFileName : String
  abspath : String → String

/-- One entry of the list returned by `ScanSceneHook.execute`. -/
structure ScanItem where
  type : String
  name : String
deriving DecidableEq

/-- The characters after the last `'/'` of the list (the whole list if
no slash occurs). -/
def afterLastSlash (cs : List Char) : List Char :=
  cs.foldl (fun acc c => if c = '/' then [] else acc ++ [c]) []

/-- `os.path.basename` on POSIX: everything after the last slash. -/
def basename (p : String) : String :=
  String.mk (afterLastSlash p.data)

namespace ScanSceneHook

/-- `ScanSceneHook.execute` (lines 48-66 of scan_scene_tk-katana.py):
raise a `TankError` if the scene has no file name, otherwise return a
single `work_file` item named after the basename of the absolute scene
path. -/
def execute (env : ScanEnv) : Except PyErr (List ScanItem) :=
  let scene_name := env.getKatanaFileName
  if scene_name = "" then
    .error (.tankError "Please Save your file before Publishing")
  else
    let scene_path := env.abspath scene_name
    .ok [⟨"work_file", basename scene_path⟩]

end ScanSceneHook

/-! ### Association list and order lemmas -/

theorem lookup_map_replace {α : Type} (l : List (String × α)) (k : String)
    (v : α) :
    List.lookup k (l.map (fun kv => if kv.1 = k then (k, v) else kv)) =
      (List.lookup k l).map (fun _ => v) := by
  induction l with
  | nil => simp
  | cons kv t ih =>
    obtain ⟨a, b⟩ := kv
    by_cases h : a = k
    · subst h
      simp [List.lookup_cons]
    · have hbk : (k == a) = false := by
        simp [Ne.symm h]
      simp [List.lookup_cons, h, hbk, ih]

theorem lookup_append_none {α : Type} (l l2 : List (String × α))
    (k : String) (h : List.lookup k l = none) :
    List.lookup k (l ++ l2) = List.lookup k l2 := by
  induction l with
  | nil => simp
  | cons kv t ih =>
    obtain ⟨a, b⟩ := kv
    simp only [List.cons_append, List.lookup_cons] at h ⊢
    cases hbk : (k == a) with
    | true => simp [hbk] at h
    | false =>
      simp only [hbk] at h ⊢
      exact ih h

theorem lookup_alSet {α : Type} (l : List (String × α)) (k : String)
    (v : α) : List.lookup k (alSet l k v) = some v := by
  unfold alSet
  cases h : List.lookup k l with
  | none =>
    simp only [h, Option.isSome_none, Bool.false_eq_true, if_false]
    rw [lookup_append_none l _ k h]
    simp [List.lookup_cons]
  | some w =>
    simp only [h, Option.isSome_some, if_true]
    rw [lookup_map_replace]
    simp [h]

theorem lookup_injFS (fs : FieldSet) (k : String) :
    List.lookup k (injFS fs) = (List.lookup k fs).map CVal.atom := by
  induction fs with
  | nil => simp [injFS]
  | cons kv t ih =>
    obtain ⟨a, b⟩ := kv
    simp only [injFS, List.map_cons, List.lookup_cons]
    cases hbk : (k == a) with
    | true => simp
    | false => simpa [injFS] using ih

theorem lexLt_asymm : ∀ a b : List Char,
    lexLt a b = true → lexLt b a = false
  | _, [], h => by simp [lexLt] at h
  | [], _ :: _, _ => rfl
  | x :: xs, y :: ys, h => by
    simp only [lexLt, Bool.or_eq_true, Bool.and_eq_true,
      decide_eq_true_eq] at h
    rcases h with h | ⟨he, hr⟩
    · have h1 : ¬ (y.toNat < x.toNat) := by omega
      have h2 : ¬ (y.toNat = x.toNat) := by omega
      simp [lexLt, h1, h2]
    · have h1 : ¬ (y.toNat < x.toNat) := by omega
      have h2 : y.toNat = x.toNat := he.symm
      simp [lexLt, h1, h2, lexLt_asymm xs ys hr]

theorem lexLt_trans : ∀ a b c : List Char,
    lexLt a b = true → lexLt b c = true → lexLt a c = true
  | _, _, [], _, h2 => by simp [lexLt] at h2
  | _, [], _ :: _, h1, _ => by simp [lexLt] at h1
  | [], _ :: _, _ :: _, _, _ => rfl
  | x :: xs, y :: ys, z :: zs, h1, h2 => by
    simp only [lexLt, Bool.or_eq_true, Bool.and_eq_true,
      decide_eq_true_eq] at h1 h2 ⊢
    rcases h1 with h1 | ⟨he1, hr1⟩ <;> rcases h2 with h2 | ⟨he2, hr2⟩
    · exact Or.inl (Nat.lt_trans h1 h2)
    · exact Or.inl (he2 ▸ h1)
    · exact Or.inl (he1 ▸ h2)
    · exact Or.inr ⟨he1.trans he2, lexLt_trans xs ys zs hr1 hr2⟩

theorem char_toNat_inj {a b : Char} (h : a.toNat = b.toNat) : a = b :=
  Char.ext (UInt32.ext h)

theorem lexLt_connex : ∀ a b : List Char,
    lexLt a b = false → lexLt b a = false → a = b
  | [], [], _, _ => rfl
  | [], _ :: _, h1, _ => by simp [lexLt] at h1
  | _ :: _, [], _, h2 => by simp [lexLt] at h2
  | x :: xs, y :: ys, h1, h2 => by
    simp only [lexLt, Bool.or_eq_false_iff, Bool.and_eq_false_iff,
      decide_eq_false_iff_not] at h1 h2
    have hxy : x.toNat = y.toNat := Nat.le_antisymm
      (Nat.le_of_not_lt h2.1) (Nat.le_of_not_lt h1.1)
    have hx : x = y := char_toNat_inj hxy
    subst hx
    rcases h1.2 with h | h
    · exact absurd rfl h
    · rcases h2.2 with h' | h'
      · exact absurd rfl h'
      · rw [lexLt_connex xs ys h h']

instance : IsTotal String strGe := by
  constructor
  intro a b
  by_cases h : lexLt a.data b.data = true
  · exact Or.inr (lexLt_asymm _ _ h)
  · exact Or.inl (by simpa using h)

instance : IsTrans String strGe := by
  constructor
  intro a b c hab hbc
  unfold strGe at hab hbc ⊢
  by_contra hac
  have hac' : lexLt a.data c.data = true := by
    cases h : lexLt a.data c.data with
    | false => exact absurd h hac
    | true => rfl
  cases hba : lexLt b.data a.data with
  | true =>
    have h3 := lexLt_trans _ _ _ hba hac'
    rw [h3] at hbc
    simp at hbc
  | false =>
    have hdata : a.data = b.data := lexLt_connex _ _ hab hba
    rw [hdata] at hac'
    rw [hac'] at hbc
    simp at hbc

theorem satisfiedB_iff (pathExists : String → Bool)
    (pubGetF : String → FieldSet) (pubPaths : List String)
    (wf : FieldSet) :
    satisfiedB pathExists pubGetF pubPaths wf = true ↔
      Satisfied pathExists pubGetF pubPaths wf := by
  simp [satisfiedB, Satisfied, List.any_eq_true]

/-! ### Characterisation of the resolution loop -/

/-- Invariant of the `publish_fields` variable: it is the initial empty
dict of line 306 or the (injected) field set of some already visited
publish path, reassigned on line 314. -/
def InvD (pubPaths : List String) (pubGetF : String → FieldSet)
    (D : CDict) : Prop :=
  D = [] ∨ ∃ q ∈ pubPaths, D = injFS (pubGetF q)

theorem lookup_of_InvD {pubPaths : List String}
    {pubGetF : String → FieldSet} {D : CDict}
    (hdisj : ∀ p ∈ pubPaths, ∀ q ∈ pubPaths,
      List.lookup p (pubGetF q) = none)
    (hD : InvD pubPaths pubGetF D) {p : String} (hp : p ∈ pubPaths) :
    List.lookup p D = none := by
  rcases hD with rfl | ⟨q, hq, rfl⟩
  · simp
  · rw [lookup_injFS, hdisj p hp q hq]
    rfl

theorem publishCheckLoop_spec (pathExists : String → Bool)
    (pubGetF : String → FieldSet) (pubPaths : List String) (wf : FieldSet)
    (hdisj : ∀ p ∈ pubPaths, ∀ q ∈ pubPaths,
      List.lookup p (pubGetF q) = none)
    (hpv : ∀ p ∈ pubPaths, pathExists p = true →
      (List.lookup "version" (pubGetF p)).isSome = true)
    (hwv : ∀ p ∈ pubPaths, pathExists p = true →
      (List.lookup "version" wf).isSome = true) :
    ∀ (ps : List String) (D : CDict), (∀ p ∈ ps, p ∈ pubPaths) →
      InvD pubPaths pubGetF D →
      ∃ D2 tr,
        KatanaLookFilePublishPlugin.publishCheckLoop pathExists pubGetF wf
            D ps =
          (.ok (satisfiedB pathExists pubGetF ps wf, D2), tr) ∧
        InvD pubPaths pubGetF D2 := by
  intro ps
  induction ps with
  | nil => exact fun D _ hD => ⟨D, [], rfl, hD⟩
  | cons p ps ih =>
    intro D hsub hD
    have hp : p ∈ pubPaths := hsub p (by simp)
    have hlk : List.lookup p D = none := lookup_of_InvD hdisj hD hp
    have hInv : InvD pubPaths pubGetF (injFS (pubGetF p)) :=
      Or.inr ⟨p, hp, rfl⟩
    simp only [KatanaLookFilePublishPlugin.publishCheckLoop, hlk,
      Option.isSome_none, Bool.false_eq_true, if_false, lookup_alSet]
    cases hpe : pathExists p with
    | false =>
      obtain ⟨D2, tr, heq, hD2⟩ :=
        ih (injFS (pubGetF p)) (fun q hq => hsub q (List.mem_cons_of_mem _ hq))
          hInv
      refine ⟨D2,
        [TraceEv.pubGetFieldsEv p] ++ [TraceEv.pathExistsEv p] ++ tr,
        ?_, hD2⟩
      rw [heq]
      simp [satisfiedB, hpe]
    | true =>
      obtain ⟨pv, hpv'⟩ := Option.isSome_iff_exists.mp (hpv p hp hpe)
      obtain ⟨wv, hwv'⟩ := Option.isSome_iff_exists.mp (hwv p hp hpe)
      rw [hpv', hwv']
      by_cases heqv : pv = wv
      · refine ⟨injFS (pubGetF p),
          [TraceEv.pubGetFieldsEv p] ++ [TraceEv.pathExistsEv p], ?_, hInv⟩
        simp [heqv, satisfiedB, hpe, hpv', hwv']
      · obtain ⟨D2, tr, heq, hD2⟩ :=
          ih (injFS (pubGetF p))
            (fun q hq => hsub q (List.mem_cons_of_mem _ hq)) hInv
        refine ⟨D2,
          [TraceEv.pubGetFieldsEv p] ++ [TraceEv.pathExistsEv p] ++ tr,
          ?_, hD2⟩
        simp [heq, satisfiedB, hpe, hpv', hwv', heqv]

/-- The cumulative effect of line 318 over the outer loop: erase each
satisfied work path from the running candidate list. -/
def eraseSatisfied (sat : String → Bool) :
    List String → List String → List String
  | acc, [] => acc
  | acc, w :: ws => eraseSatisfied sat (if sat w then acc.erase w else acc) ws

theorem workCheckLoop_spec (pathExists : String → Bool)
    (pubGetF workGetF : String → FieldSet) (pubPaths : List String)
    (hdisj : ∀ p ∈ pubPaths, ∀ q ∈ pubPaths,
      List.lookup p (pubGetF q) = none)
    (hpv : ∀ p ∈ pubPaths, pathExists p = true →
      (List.lookup "version" (pubGetF p)).isSome = true) :
    ∀ (ws toPub : List String) (D : CDict),
      (∀ w ∈ ws, ∀ p ∈ pubPaths, pathExists p = true →
        (List.lookup "version" (workGetF w)).isSome = true) →
      InvD pubPaths pubGetF D →
      ∃ D2 tr,
        KatanaLookFilePublishPlugin.workCheckLoop pathExists pubGetF
            workGetF pubPaths toPub D ws =
          (.ok (eraseSatisfied
              (fun w => satisfiedB pathExists pubGetF pubPaths (workGetF w))
              toPub ws, D2), tr) ∧
        InvD pubPaths pubGetF D2 := by
  intro ws
  induction ws with
  | nil => exact fun toPub D _ hD => ⟨D, [], rfl, hD⟩
  | cons w ws ih =>
    intro toPub D hwv hD
    obtain ⟨D1, tr1, heq1, hD1⟩ :=
      publishCheckLoop_spec pathExists pubGetF pubPaths (workGetF w) hdisj
        hpv (hwv w (by simp)) pubPaths D (fun _ hq => hq) hD
    obtain ⟨D2, tr2, heq2, hD2⟩ :=
      ih (if satisfiedB pathExists pubGetF pubPaths (workGetF w) then
            toPub.erase w else toPub) D1
        (fun x hx => hwv x (List.mem_cons_of_mem _ hx)) hD1
    refine ⟨D2, TraceEv.workGetFieldsEv w :: tr1 ++ tr2, ?_, hD2⟩
    simp only [KatanaLookFilePublishPlugin.workCheckLoop, heq1]
    rw [heq2]
    simp [eraseSatisfied]

theorem eraseSatisfied_eq_filter (sat : String → Bool) :
    ∀ (ws acc : List String), acc.Nodup →
      eraseSatisfied sat acc ws =
        acc.filter (fun x => !(sat x && decide (x ∈ ws))) := by
  intro ws
  induction ws with
  | nil => intro acc _; simp [eraseSatisfied]
  | cons w ws ih =>
    intro acc hnd
    by_cases hw : sat w = true
    · rw [eraseSatisfied, if_pos hw, ih _ (hnd.erase w),
        List.Nodup.erase_eq_filter hnd w, List.filter_filter]
      apply List.filter_congr
      intro x hx
      by_cases hxw : x = w
      · subst hxw
        simp [hw]
      · simp [hxw, Ne.symm hxw]
    · have hw' : sat w = false := by simpa using hw
      rw [eraseSatisfied, if_neg hw, ih _ hnd]
      apply List.filter_congr
      intro x hx
      by_cases hxw : x = w
      · subst hxw
        simp [hw']
      · simp [hxw]

theorem eraseSatisfied_sortDesc (sat : String → Bool) (W : List String)
    (hnd : W.Nodup) :
    eraseSatisfied sat (sortDesc W) W =
      (sortDesc W).filter (fun x => !(sat x)) := by
  have hnds : (sortDesc W).Nodup :=
    ((List.perm_insertionSort strGe W).nodup_iff).mpr hnd
  rw [eraseSatisfied_eq_filter sat W (sortDesc W) hnds]
  apply List.filter_congr
  intro x hx
  have hxW : x ∈ W := by
    have := (List.mem_insertionSort strGe (l := W) (x := x))
    exact this.mp hx
  simp [hxW]

theorem mem_sortDesc {x : String} {l : List String} :
    x ∈ sortDesc l ↔ x ∈ l :=
  List.mem_insertionSort strGe

theorem sortDesc_sorted (l : List String) :
    List.Sorted strGe (sortDesc l) :=
  List.sorted_insertionSort strGe l

theorem eraseSatisfied_of_never (sat : String → Bool) :
    ∀ (ws acc : List String), (∀ w ∈ ws, sat w = false) →
      eraseSatisfied sat acc ws = acc := by
  intro ws
  induction ws with
  | nil => intro acc _; rfl
  | cons w ws ih =>
    intro acc h
    rw [eraseSatisfied, if_neg (by simp [h w (by simp)]), ih]
    intro x hx
    exact h x (List.mem_cons_of_mem _ hx)

/-! ### Claims -/

/-- C1: In `accept`'s resolution loop (lines 305--319), a work path is
removed from the candidate list iff some enumerated publish path exists
on disk and its extracted field set's version equals the work path's
version; a publish path existing on disk with a different version never
satisfies the work path.  The hypotheses say that no publish path
occurs as a field-name key of another publish path's field set (so the
clobbered cache of line 314 never produces a spurious hit), that the
relevant field sets carry a `version` key whenever it is read, and that
the enumerated work paths are distinct. -/
theorem accept_loop_satisfied_iff (pathExists : String → Bool)
    (pubGetF workGetF : String → FieldSet)
    (pubPaths workPaths : List String)
    (hdisj : ∀ p ∈ pubPaths, ∀ q ∈ pubPaths,
      List.lookup p (pubGetF q) = none)
    (hpv : ∀ p ∈ pubPaths, pathExists p = true →
      (List.lookup "version" (pubGetF p)).isSome = true)
    (hwv : ∀ w ∈ workPaths, ∀ p ∈ pubPaths, pathExists p = true →
      (List.lookup "version" (workGetF w)).isSome = true)
    (hnd : workPaths.Nodup) :
    ∃ L D2 tr,
      KatanaLookFilePublishPlugin.workCheckLoop pathExists pubGetF
          workGetF pubPaths (sortDesc workPaths) [] workPaths =
        (.ok (L, D2), tr) ∧
      ∀ w ∈ workPaths,
        ((w ∉ L) ↔ Satisfied pathExists pubGetF pubPaths (workGetF w)) := by
  obtain ⟨D2, tr, heq, _⟩ :=
    workCheckLoop_spec pathExists pubGetF workGetF pubPaths hdisj hpv
      workPaths (sortDesc workPaths) [] hwv (Or.inl rfl)
  refine ⟨_, D2, tr, heq, ?_⟩
  intro w hw
  rw [eraseSatisfied_sortDesc _ _ hnd]
  have hmem : w ∈ (sortDesc workPaths).filter
      (fun x => !(satisfiedB pathExists pubGetF pubPaths (workGetF x))) ↔
      (satisfiedB pathExists pubGetF pubPaths (workGetF w)) = false := by
    simp [List.mem_filter, mem_sortDesc, hw]
  constructor
  · intro hnotin
    have hne : ¬ (satisfiedB pathExists pubGetF pubPaths (workGetF w)
        = false) := fun hf => hnotin (hmem.mpr hf)
    have hsB : satisfiedB pathExists pubGetF pubPaths (workGetF w)
        = true := by
      cases hb : satisfiedB pathExists pubGetF pubPaths (workGetF w) with
      | false => exact absurd hb hne
      | true => rfl
    exact (satisfiedB_iff _ _ _ _).mp hsB
  · intro hsat hin
    have hfalse := hmem.mp hin
    rw [(satisfiedB_iff _ _ _ _).mpr hsat] at hfalse
    simp at hfalse

/-- C7: if no enumerated publish path exists on disk, every enumerated
work path is classified unsatisfied: the loop returns the full work
path list, sorted descending.  (The version hypotheses of C1 are not
needed, since line 315 short-circuits before reading any version when
the existence check fails.) -/
theorem accept_no_publish_on_disk_all_unsatisfied
    (pathExists : String → Bool) (pubGetF workGetF : String → FieldSet)
    (pubPaths workPaths : List String)
    (hdisj : ∀ p ∈ pubPaths, ∀ q ∈ pubPaths,
      List.lookup p (pubGetF q) = none)
    (hnone : ∀ p ∈ pubPaths, pathExists p = false) :
    ∃ D2 tr,
      KatanaLookFilePublishPlugin.workCheckLoop pathExists pubGetF
          workGetF pubPaths (sortDesc workPaths) [] workPaths =
        (.ok (sortDesc workPaths, D2), tr) ∧
      List.Sorted strGe (sortDesc workPaths) := by
  have hpv : ∀ p ∈ pubPaths, pathExists p = true →
      (List.lookup "version" (pubGetF p)).isSome = true := by
    intro p hp hpe
    rw [hnone p hp] at hpe
    exact absurd hpe (by simp)
  have hwv : ∀ w ∈ workPaths, ∀ p ∈ pubPaths, pathExists p = true →
      (List.lookup "version" (workGetF w)).isSome = true := by
    intro w _ p hp hpe
    rw [hnone p hp] at hpe
    exact absurd hpe (by simp)
  obtain ⟨D2, tr, heq, _⟩ :=
    workCheckLoop_spec pathExists pubGetF workGetF pubPaths hdisj hpv
      workPaths (sortDesc workPaths) [] hwv (Or.inl rfl)
  have hsat : ∀ w ∈ workPaths,
      satisfiedB pathExists pubGetF pubPaths (workGetF w) = false := by
    intro w _
    simp only [satisfiedB, List.any_eq_false]
    intro p hp
    simp [hnone p hp]
  rw [eraseSatisfied_of_never _ workPaths (sortDesc workPaths) hsat] at heq
  exact ⟨D2, tr, heq, sortDesc_sorted workPaths⟩

/-- C2: when `accept` succeeds, the recorded `work_paths` candidate
list consists of exactly the unsatisfied work paths, sorted in
descending string (version) order, and the recorded `to_publish`
default is the first (highest) entry of that list.  The hypotheses
name the collaborator results along the successful control path plus
the loop hypotheses of C1. -/
theorem accept_candidate_list_spec (env : AcceptEnv) (s : Settings)
    (i : ItemProps) (WT PT : Template) (fields : FieldSet) (v0 : FVal)
    (workPaths pubPaths : List String)
    (hWT : env.get_template_by_name
      (env.getNode env.itemName).sg_work_template = some WT)
    (hf : WT.validate_and_get_fields
      (env.getNode env.itemName).sg_saveTo = some fields)
    (hfne : fields ≠ [])
    (hv : List.lookup "version" fields = some v0)
    (hwp : env.abstract_paths_from_template WT.name
      (fields.filter (fun kv => !(kv.1 == "version"))) = workPaths)
    (hwpne : workPaths ≠ [])
    (hPT : env.get_template_by_name
      (env.getNode env.itemName).sg_publish_template = some PT)
    (hpp : env.abstract_paths_from_template PT.name
      (fields.filter (fun kv => !(kv.1 == "version"))) = pubPaths)
    (hdisj : ∀ p ∈ pubPaths, ∀ q ∈ pubPaths,
      List.lookup p (PT.get_fields q) = none)
    (hpv : ∀ p ∈ pubPaths, env.pathExists p = true →
      (List.lookup "version" (PT.get_fields p)).isSome = true)
    (hwv : ∀ w ∈ workPaths, ∀ p ∈ pubPaths, env.pathExists p = true →
      (List.lookup "version" (WT.get_fields w)).isSome = true)
    (hnd : workPaths.Nodup)
    (hunsat : ∃ w ∈ workPaths,
      ¬ Satisfied env.pathExists PT.get_fields pubPaths (WT.get_fields w)) :
    ∃ L : List String,
      (KatanaLookFilePublishPlugin.accept env s i).outcome =
        .ok ⟨true, none, none, true⟩ ∧
      List.lookup env.itemName
          (KatanaLookFilePublishPlugin.accept env s i).settings.node_settings
        = some ⟨L, L.headD ""⟩ ∧
      List.Sorted strGe L ∧
      (∀ w, w ∈ L ↔ w ∈ workPaths ∧
        ¬ Satisfied env.pathExists PT.get_fields pubPaths (WT.get_fields w)) ∧
      L ≠ [] := by
  obtain ⟨D2, tr, heqLoop, _⟩ :=
    workCheckLoop_spec env.pathExists PT.get_fields WT.get_fields pubPaths
      hdisj hpv workPaths (sortDesc workPaths) [] hwv (Or.inl rfl)
  rw [eraseSatisfied_sortDesc _ _ hnd] at heqLoop
  set sat := fun w =>
    satisfiedB env.pathExists PT.get_fields pubPaths (WT.get_fields w)
    with hsatdef
  have hmemL : ∀ w, w ∈ (sortDesc workPaths).filter (fun x => !(sat x)) ↔
      w ∈ workPaths ∧ ¬ Satisfied env.pathExists PT.get_fields pubPaths
        (WT.get_fields w) := by
    intro w
    rw [List.mem_filter, mem_sortDesc]
    constructor
    · rintro ⟨hw, hb⟩
      refine ⟨hw, fun hsat => ?_⟩
      rw [hsatdef] at hb
      simp only [Bool.not_eq_true'] at hb
      rw [(satisfiedB_iff _ _ _ _).mpr hsat] at hb
      simp at hb
    · rintro ⟨hw, hnsat⟩
      refine ⟨hw, ?_⟩
      rw [hsatdef]
      simp only [Bool.not_eq_true']
      cases hb : satisfiedB env.pathExists PT.get_fields pubPaths
          (WT.get_fields w) with
      | false => rfl
      | true => exact absurd ((satisfiedB_iff _ _ _ _).mp hb) hnsat
  have hLne : (sortDesc workPaths).filter (fun x => !(sat x)) ≠ [] := by
    obtain ⟨w, hw, hnsat⟩ := hunsat
    exact List.ne_nil_of_mem ((hmemL w).mpr ⟨hw, hnsat⟩)
  obtain ⟨t, rest, hcons⟩ :=
    List.exists_cons_of_ne_nil hLne
  refine ⟨(sortDesc workPaths).filter (fun x => !(sat x)), ?_, ?_, ?_,
    hmemL, hLne⟩
  · simp only [KatanaLookFilePublishPlugin.accept, hWT, hf, hv, hwp, hPT,
      hpp, if_neg hfne, if_neg hwpne, heqLoop, hcons]
  · simp only [KatanaLookFilePublishPlugin.accept, hWT, hf, hv, hwp, hPT,
      hpp, if_neg hfne, if_neg hwpne, heqLoop, hcons,
      KatanaLookFilePublishPlugin.set_item_settings]
    rw [lookup_alSet]
    simp
  · exact (sortDesc_sorted workPaths).filter _

/-- C6: when the node's save path does not validate against the work
template (field extraction returns `None`), `accept` reports
not-eligible without consulting the publish template: its trace is
exactly the settings write, the node fetch, the work-template lookup
and the failed field extraction — in particular it contains no
publish-path field extraction and no path enumeration at all. -/
theorem accept_invalid_path_rejects (env : AcceptEnv) (s : Settings)
    (i : ItemProps) (WT : Template)
    (hWT : env.get_template_by_name
      (env.getNode env.itemName).sg_work_template = some WT)
    (hf : WT.validate_and_get_fields
      (env.getNode env.itemName).sg_saveTo = none) :
    (KatanaLookFilePublishPlugin.accept env s i).outcome =
      .ok ⟨false, some false, some false, false⟩ ∧
    (KatanaLookFilePublishPlugin.accept env s i).trace =
      [TraceEv.setSettingsNode env.itemName,
       TraceEv.getNodeEv env.itemName,
       TraceEv.getTemplateEv (env.getNode env.itemName).sg_work_template,
       TraceEv.validateAndGetFieldsEv (env.getNode env.itemName).sg_saveTo] ∧
    (∀ p, TraceEv.pubGetFieldsEv p ∉
      (KatanaLookFilePublishPlugin.accept env s i).trace) ∧
    (∀ t, TraceEv.abstractPathsEv t ∉
      (KatanaLookFilePublishPlugin.accept env s i).trace) := by
  refine ⟨?_, ?_, ?_, ?_⟩
  · simp [KatanaLookFilePublishPlugin.accept, hWT, hf]
  · simp [KatanaLookFilePublishPlugin.accept, hWT, hf]
  · intro p
    simp [KatanaLookFilePublishPlugin.accept, hWT, hf]
  · intro t
    simp [KatanaLookFilePublishPlugin.accept, hWT, hf]

/-- C9: every `accept` call — including every rejecting or crashing
one — records `item.name` into `settings["node"]`, and that settings
write is the very first collaborator-visible action of the call
(line 274 precedes every eligibility check). -/
theorem accept_always_writes_node_first (env : AcceptEnv) (s : Settings)
    (i : ItemProps) :
    (KatanaLookFilePublishPlugin.accept env s i).settings.node =
      env.itemName ∧
    (KatanaLookFilePublishPlugin.accept env s i).trace.head? =
      some (TraceEv.setSettingsNode env.itemName) := by
  constructor
  · simp only [KatanaLookFilePublishPlugin.accept,
      KatanaLookFilePublishPlugin.set_item_settings]
    repeat' split
    all_goals rfl
  · simp only [KatanaLookFilePublishPlugin.accept]
    repeat' split
    all_goals rfl

/-- C8: running `accept` twice on the same item with unchanged
collaborator results (same environment) yields the same outcome and
the same recorded candidate entry (`work_paths` list and `to_publish`
default) for the item's node. -/
theorem accept_idempotent (env : AcceptEnv) (s : Settings)
    (i : ItemProps) :
    (KatanaLookFilePublishPlugin.accept env
        (KatanaLookFilePublishPlugin.accept env s i).settings
        (KatanaLookFilePublishPlugin.accept env s i).item).outcome =
      (KatanaLookFilePublishPlugin.accept env s i).outcome ∧
    List.lookup env.itemName
        (KatanaLookFilePublishPlugin.accept env
          (KatanaLookFilePublishPlugin.accept env s i).settings
          (KatanaLookFilePublishPlugin.accept env s i).item).settings.node_settings =
      List.lookup env.itemName
        (KatanaLookFilePublishPlugin.accept env s i).settings.node_settings := by
  cases h1 : env.get_template_by_name
      (env.getNode env.itemName).sg_work_template with
  | none => simp [KatanaLookFilePublishPlugin.accept, h1]
  | some WT =>
    cases h2 : WT.validate_and_get_fields
        (env.getNode env.itemName).sg_saveTo with
    | none => simp [KatanaLookFilePublishPlugin.accept, h1, h2]
    | some fields =>
      by_cases h3 : fields = []
      · simp [KatanaLookFilePublishPlugin.accept, h1, h2, h3]
      · cases h4 : List.lookup "version" fields with
        | none => simp [KatanaLookFilePublishPlugin.accept, h1, h2, h3, h4]
        | some v0 =>
          by_cases h5 : env.abstract_paths_from_template WT.name
              (List.filter (fun kv => !(kv.1 == "version")) fields) = []
          · simp [KatanaLookFilePublishPlugin.accept, h1, h2, h3, h4, h5]
          · cases h6 : env.get_template_by_name
                (env.getNode env.itemName).sg_publish_template with
            | none =>
              simp [KatanaLookFilePublishPlugin.accept, h1, h2, h3, h4,
                h5, h6]
            | some PT =>
              cases h7 : (KatanaLookFilePublishPlugin.workCheckLoop
                  env.pathExists PT.get_fields WT.get_fields
                  (env.abstract_paths_from_template PT.name
                    (List.filter (fun kv => !(kv.1 == "version")) fields))
                  (sortDesc (env.abstract_paths_from_template WT.name
                    (List.filter (fun kv => !(kv.1 == "version")) fields)))
                  []
                  (env.abstract_paths_from_template WT.name
                    (List.filter (fun kv => !(kv.1 == "version")) fields))).1
                  with
              | error e =>
                simp [KatanaLookFilePublishPlugin.accept, h1, h2, h3, h4,
                  h5, h6, h7]
              | ok tp =>
                cases h8 : tp.1 with
                | nil =>
                  simp [KatanaLookFilePublishPlugin.accept, h1, h2, h3,
                    h4, h5, h6, h7, h8]
                | cons t rest =>
                  simp [KatanaLookFilePublishPlugin.accept, h1, h2, h3,
                    h4, h5, h6, h7, h8,
                    KatanaLookFilePublishPlugin.set_item_settings,
                    lookup_alSet]

/-! ### Concrete fixtures for witnesses and counterexamples -/

/-- Existence on disk for the C1 run: only `/pub/v001` exists. -/
def peC1 : String → Bool := fun p => p == "/pub/v001"

/-- Publish-template field extraction for the C1 run. -/
def pgC1 : String → FieldSet := fun p =>
  if p == "/pub/v001" then [("version", FVal.n 1)] else []

/-- Work-template field extraction for the C1 run. -/
def wgC1 : String → FieldSet := fun w =>
  if w == "/work/v001" then [("version", FVal.n 1)]
  else [("version", FVal.n 2)]

/-- Witness for C1: work versions 1 and 2, published version 1 on
disk; version 1 is satisfied, version 2 is not. -/
theorem accept_loop_satisfied_iff_witness :
    ∃ L D2 tr,
      KatanaLookFilePublishPlugin.workCheckLoop peC1 pgC1 wgC1
          ["/pub/v001"] (sortDesc ["/work/v001", "/work/v002"]) []
          ["/work/v001", "/work/v002"] =
        (.ok (L, D2), tr) ∧
      ∀ w ∈ ["/work/v001", "/work/v002"],
        ((w ∉ L) ↔ Satisfied peC1 pgC1 ["/pub/v001"] (wgC1 w)) :=
  accept_loop_satisfied_iff peC1 pgC1 wgC1 ["/pub/v001"]
    ["/work/v001", "/work/v002"] (by decide) (by decide) (by decide)
    (by decide)

/-- Witness for C7: one enumerated publish path, absent from disk;
both work paths stay in the (descending) candidate list. -/
theorem accept_no_publish_on_disk_all_unsatisfied_witness :
    ∃ D2 tr,
      KatanaLookFilePublishPlugin.workCheckLoop (fun _ => false)
          (fun _ => []) (fun _ => []) ["/pub7/a"]
          (sortDesc ["/w7/a", "/w7/b"]) [] ["/w7/a", "/w7/b"] =
        (.ok (sortDesc ["/w7/a", "/w7/b"], D2), tr) ∧
      List.Sorted strGe (sortDesc ["/w7/a", "/w7/b"]) :=
  accept_no_publish_on_disk_all_unsatisfied (fun _ => false)
    (fun _ => []) (fun _ => []) ["/pub7/a"] ["/w7/a", "/w7/b"]
    (by decide) (by decide)

/-- Work template fixture for the C2 run. -/
def wtC2 : Template :=
  { name := "wt2",
    validate_and_get_fields := fun p =>
      if p == "/w2/v001" then
        some [("name", FVal.s "n2"), ("version", FVal.n 1)]
      else none,
    get_fields := fun w =>
      if w == "/w2/v002" then [("version", FVal.n 2)]
      else [("version", FVal.n 1)],
    validate := fun _ => true,
    apply_fields := fun _ => "" }

/-- Publish template fixture for the C2 run. -/
def ptC2 : Template :=
  { name := "pt2",
    validate_and_get_fields := fun _ => none,
    get_fields := fun _ => [("version", FVal.n 1)],
    validate := fun _ => true,
    apply_fields := fun _ => "" }

/-- Environment for the C2 run: work versions 1 and 2, published
version 1 present on disk. -/
def envC2 : AcceptEnv :=
  { itemName := "n2",
    getNode := fun _ =>
      { sg_saveTo := "/w2/v001", sg_work_template := "wt2",
        sg_publish_template := "pt2" },
    get_template_by_name := fun n =>
      if n == "wt2" then some wtC2
      else if n == "pt2" then some ptC2 else none,
    abstract_paths_from_template := fun n _ =>
      if n == "wt2" then ["/w2/v001", "/w2/v002"] else ["/p2/v001"],
    pathExists := fun p => p == "/p2/v001" }

/-- Witness for C2: `accept` succeeds and records exactly the
unsatisfied work path `/w2/v002`, with itself as the default. -/
theorem accept_candidate_list_spec_witness :
    ∃ L : List String,
      (KatanaLookFilePublishPlugin.accept envC2 ⟨"", []⟩
          ⟨none, none, none, none⟩).outcome =
        .ok ⟨true, none, none, true⟩ ∧
      List.lookup envC2.itemName
          (KatanaLookFilePublishPlugin.accept envC2 ⟨"", []⟩
            ⟨none, none, none, none⟩).settings.node_settings
        = some ⟨L, L.headD ""⟩ ∧
      List.Sorted strGe L ∧
      (∀ w, w ∈ L ↔ w ∈ ["/w2/v001", "/w2/v002"] ∧
        ¬ Satisfied envC2.pathExists ptC2.get_fields ["/p2/v001"]
          (wtC2.get_fields w)) ∧
      L ≠ [] :=
  accept_candidate_list_spec envC2 ⟨"", []⟩ ⟨none, none, none, none⟩
    wtC2 ptC2 [("name", FVal.s "n2"), ("version", FVal.n 1)] (FVal.n 1)
    ["/w2/v001", "/w2/v002"] ["/p2/v001"] rfl rfl (by decide) rfl rfl
    (by decide) rfl rfl (by decide) (by decide) (by decide) (by decide)
    (by decide)

/-- Work template fixture for the C6 run: field extraction rejects
every path. -/
def wtC6 : Template :=
  { name := "wt6",
    validate_and_get_fields := fun _ => none,
    get_fields := fun _ => [],
    validate := fun _ => false,
    apply_fields := fun _ => "" }

/-- Environment for the C6 run. -/
def envC6 : AcceptEnv :=
  { itemName := "n6",
    getNode := fun _ =>
      { sg_saveTo := "/bad6", sg_work_template := "wt6",
        sg_publish_template := "pt6" },
    get_template_by_name := fun n =>
      if n == "wt6" then some wtC6 else none,
    abstract_paths_from_template := fun _ _ => [],
    pathExists := fun _ => false }

/-- Witness for C6: an invalid save path produces the not-eligible
result with the four-event trace and no publish-side events. -/
theorem accept_invalid_path_rejects_witness :
    (KatanaLookFilePublishPlugin.accept envC6 ⟨"", []⟩
        ⟨none, none, none, none⟩).outcome =
      .ok ⟨false, some false, some false, false⟩ ∧
    (KatanaLookFilePublishPlugin.accept envC6 ⟨"", []⟩
        ⟨none, none, none, none⟩).trace =
      [TraceEv.setSettingsNode envC6.itemName,
       TraceEv.getNodeEv envC6.itemName,
       TraceEv.getTemplateEv
         (envC6.getNode envC6.itemName).sg_work_template,
       TraceEv.validateAndGetFieldsEv
         (envC6.getNode envC6.itemName).sg_saveTo] ∧
    (∀ p, TraceEv.pubGetFieldsEv p ∉
      (KatanaLookFilePublishPlugin.accept envC6 ⟨"", []⟩
        ⟨none, none, none, none⟩).trace) ∧
    (∀ t, TraceEv.abstractPathsEv t ∉
      (KatanaLookFilePublishPlugin.accept envC6 ⟨"", []⟩
        ⟨none, none, none, none⟩).trace) :=
  accept_invalid_path_rejects envC6 ⟨"", []⟩ ⟨none, none, none, none⟩
    wtC6 rfl rfl

/-- Work template fixture for the C3 run: save path `/w3/v001`
extracts to version 1; enumerated work paths have versions 1 and 2. -/
def wtC3 : Template :=
  { name := "wt3",
    validate_and_get_fields := fun p =>
      if p == "/w3/v001" then some [("version", FVal.n 1)] else none,
    get_fields := fun w =>
      if w == "/w3/v002" then [("version", FVal.n 2)]
      else [("version", FVal.n 1)],
    validate := fun _ => true,
    apply_fields := fun _ => "" }

/-- Publish template fixture for the C3 run. -/
def ptC3 : Template :=
  { name := "pt3",
    validate_and_get_fields := fun _ => none,
    get_fields := fun _ => [("version", FVal.n 9)],
    validate := fun _ => true,
    apply_fields := fun _ => "" }

/-- Environment for the C3 run: two enumerated work paths, one
enumerated publish path that does not exist on disk. -/
def envC3 : AcceptEnv :=
  { itemName := "n3",
    getNode := fun _ =>
      { sg_saveTo := "/w3/v001", sg_work_template := "wt3",
        sg_publish_template := "pt3" },
    get_template_by_name := fun n =>
      if n == "wt3" then some wtC3
      else if n == "pt3" then some ptC3 else none,
    abstract_paths_from_template := fun n _ =>
      if n == "wt3" then ["/w3/v001", "/w3/v002"] else ["/p3/v001"],
    pathExists := fun _ => false }

/-- C3: the publish-path field-set cache of lines 311-314 does not
work: in a run with two work paths and a single publish path,
`publish_template.get_fields` is invoked twice for that one publish
path, because line 314 (`publish_fields = publish_fields[publish_path]`)
overwrites the cache dict with a single entry's value.  This
contradicts the claim (and the source's own `# cache result as this
might be slow` comment), which promise at most one extraction per
distinct publish path. -/
theorem accept_pub_get_fields_not_cached :
    ((KatanaLookFilePublishPlugin.accept envC3 ⟨"", []⟩
        ⟨none, none, none, none⟩).trace.count
      (TraceEv.pubGetFieldsEv "/p3/v001")) = 2 := by decide

/-- Item state for the C4 run: `accept` stored a `None` work template
(the template name was not found in the registry). -/
def iC4 : ItemProps :=
  { path := none, work_template := some none,
    publish_template := none, publish_path := none }

/-- C4: on the missing-work-template input, `validate` does not raise
the intended `TankError` naming the problem: lines 363-364 evaluate
`work_template.name` on `None` while *formatting* that error message,
so the call dies with an `AttributeError` instead, contradicting the
claim that each failure case raises an error naming the specific
problem. -/
theorem validate_missing_template_attribute_error :
    (KatanaLookFilePublishPlugin.validate (fun _ => false) ⟨"n", []⟩
        iC4).1 =
      .error (.attributeError "NoneType object has no attribute name") :=
  rfl

/-- Work template fixture for the C5 run. -/
def wtC5 : Template :=
  { name := "wt5",
    validate_and_get_fields := fun _ => some [("version", FVal.n 3)],
    get_fields := fun _ => [],
    validate := fun _ => true,
    apply_fields := fun _ => "" }

/-- Publish template fixture for the C5 run: the publish path for the
selected work file. -/
def ptC5 : Template :=
  { name := "pt5",
    validate_and_get_fields := fun _ => none,
    get_fields := fun _ => [],
    validate := fun _ => true,
    apply_fields := fun _ => "/pub5/v003" }

/-- Item state for the C5 run: both templates present, no publish path
recorded yet. -/
def iC5 : ItemProps :=
  { path := none, work_template := some (some wtC5),
    publish_template := some (some ptC5), publish_path := none }

/-- Settings for the C5 run: node `n5` selected `/w5/v003`. -/
def sC5 : Settings :=
  { node := "n5", node_settings := [("n5", ⟨["/w5/v003"], "/w5/v003"⟩)] }

/-- C5 counterexample: with every path existing on disk, `validate`
fails with the already-copied `IOError` (line 381), but the item's
properties have been changed by the failed call — lines 378-379 wrote
`publish_path` (and `path`) before the raise — refuting the claim that
a failed `validate` commits no state. -/
theorem validate_failure_mutates_item :
    ((KatanaLookFilePublishPlugin.validate (fun _ => true) sC5 iC5).1 =
      .error (.ioError
        "The file '/w5/v003' has already been copied to the publish location.")) ∧
    (KatanaLookFilePublishPlugin.validate (fun _ => true) sC5
        iC5).2.publish_path ≠ iC5.publish_path := by
  constructor
  · rfl
  · intro h
    simp [KatanaLookFilePublishPlugin.validate, sC5, iC5, wtC5, ptC5] at h

/-- C5 amended: a failed `validate` never touches the settings object
(the embedding returns none because the source only reads it), and
leaves the item properties unchanged in every failure case except the
final already-copied check, where `publish_path` and `path` have
already been recorded on the item before the raise (and likewise on
success). -/
theorem validate_item_state (pe : String → Bool) (s : Settings)
    (i : ItemProps) :
    (KatanaLookFilePublishPlugin.validate pe s i).2 = i ∨
    ∃ pp q,
      (KatanaLookFilePublishPlugin.validate pe s i).2 =
        { i with publish_path := some pp, path := some q } ∧
      ((KatanaLookFilePublishPlugin.validate pe s i).1 = .ok true ∨
       (KatanaLookFilePublishPlugin.validate pe s i).1 =
         .error (.ioError ("The file '" ++ q ++
           "' has already been copied to the publish location."))) := by
  simp only [KatanaLookFilePublishPlugin.validate]
  repeat' split
  all_goals try exact Or.inl rfl
  · exact Or.inr ⟨_, _, rfl, Or.inr rfl⟩
  · exact Or.inr ⟨_, _, rfl, Or.inl rfl⟩

/-- C10: `ScanSceneHook.execute` raises the save-your-file `TankError`
iff the host reports an empty scene file name, and otherwise returns
exactly one `work_file` item named by the basename of the scene's
absolute path. -/
theorem scan_scene_execute_spec (env : ScanEnv) :
    (ScanSceneHook.execute env =
        .error (.tankError "Please Save your file before Publishing") ↔
      env.getKatanaFileName = "") ∧
    (env.getKatanaFileName ≠ "" →
      ScanSceneHook.execute env =
        .ok [⟨"work_file", basename (env.abspath env.getKatanaFileName)⟩]) := by
  by_cases h : env.getKatanaFileName = "" <;>
    simp [ScanSceneHook.execute, h]

/-- Witness for C10: a saved scene at `/scenes/shot.katana` produces
the single `work_file` item `shot.katana`, and an unsaved scene
raises. -/
theorem scan_scene_execute_spec_witness :
    ScanSceneHook.execute ⟨"", fun s => s⟩ =
      .error (.tankError "Please Save your file before Publishing") ∧
    ScanSceneHook.execute ⟨"/scenes/shot.katana", fun s => s⟩ =
      .ok [⟨"work_file", "shot.katana"⟩] := by
  constructor
  · exact (scan_scene_execute_spec ⟨"", fun s => s⟩).1.mpr rfl
  · have h := (scan_scene_execute_spec
      ⟨"/scenes/shot.katana", fun s => s⟩).2 (by decide)
    rw [h]
    rfl

end TkKatana
